import Mathlib

/-!
Verification of the sample-cf-wasm worker's cross-boundary execution layer.

The JavaScript fallback kernels, HTTP route guards and the string marshaller
are embedded from `src/index.js`, `src/index-wasm.js` and the unnamed worker
variants.  The compiled module's kernels (`wasm/src/lib.rs`) are not part of
the repository snapshot, so the module-side kernels are modelled from the
specification's kernel contracts (§4.4) where a claim needs them.

JavaScript strings are modelled as lists of UTF-16 code units; a text is
given by its list of Unicode codepoints and explicitly encoded.  JavaScript
numbers produced by `parseInt` are modelled as `JSNum` (an integer or NaN);
IEEE doubles appear only in the plain-Number factorial backend, where every
intermediate is an integer, so a double is modelled by its exact integer
value together with round-to-nearest-even at 53-bit precision.
-/

/-- Model of a JavaScript number as produced by `parseInt`: an exact integer
or NaN.  (`parseInt` never returns a fractional or infinite value.) -/
inductive JSNum where
  | nan : JSNum
  | num : Int → JSNum
deriving DecidableEq

/-- ECMAScript ToInt32 on an exact integer: reduce mod 2^32 into
[-2^31, 2^31). -/
def toInt32 (x : Int) : Int :=
  if x % 2 ^ 32 < 2 ^ 31 then x % 2 ^ 32 else x % 2 ^ 32 - 2 ^ 32

/-- UTF-16 encoding of a list of Unicode codepoints: BMP codepoints are one
code unit, others a surrogate pair. -/
def utf16Units (cps : List Nat) : List Nat :=
  cps.flatMap fun c =>
    if c < 0x10000 then [c]
    else [0xD800 + (c - 0x10000) / 0x400, 0xDC00 + (c - 0x10000) % 0x400]

/-- UTF-8 encoding of a list of Unicode codepoints. -/
def utf8Bytes (cps : List Nat) : List Nat :=
  cps.flatMap fun c =>
    if c < 0x80 then [c]
    else if c < 0x800 then [0xC0 + c / 64, 0x80 + c % 64]
    else if c < 0x10000 then
      [0xE0 + c / 4096, 0x80 + c / 64 % 64, 0x80 + c % 64]
    else
      [0xF0 + c / 262144, 0x80 + c / 4096 % 64, 0x80 + c / 64 % 64,
        0x80 + c % 64]

/-- Codepoints of a Lean string literal, used to write concrete test texts. -/
def strCps (s : String) : List Nat := s.data.map Char.toNat

/-- Well-formedness of a UTF-16 code-unit sequence: every high surrogate is
immediately followed by a low surrogate and no low surrogate stands alone. -/
def wellFormedUtf16 : List Nat → Bool
  | [] => true
  | u :: rest =>
    if 0xD800 ≤ u && u < 0xDC00 then
      match rest with
      | [] => false
      | v :: rest2 => (0xDC00 ≤ v && v < 0xE000) && wellFormedUtf16 rest2
    else
      !(0xDC00 ≤ u && u < 0xE000) && wellFormedUtf16 rest

namespace jsFallback

/-- From `src/index.js` line 7: `add: (a, b) => a + b`.  JavaScript number
addition is exact on the safe-integer range; the claims restrict inputs to
native range, so the addition is modelled as exact integer addition. -/
def add (a b : Int) : Int := a + b

/-- From `src/index.js` lines 8-15: BigInt factorial.  `n === 0` returns 1n,
otherwise the product of `2n..BigInt(n)` is taken.  `BigInt(NaN)` throws a
RangeError, which the model returns as `.error`; for an integer argument the
loop runs for `i = 2..n` (empty when `n < 2`). -/
def factorial : JSNum → Except String Nat
  | JSNum.nan => Except.error "Cannot convert NaN to a BigInt"
  | JSNum.num v =>
    if v = 0 then Except.ok 1
    else Except.ok ((List.range' 2 (v.toNat - 1)).foldl (· * ·) 1)

/-- From `src/index.js` lines 16-22: trial division.  `n < 2` returns false;
otherwise the loop runs `i = 2` while `i <= Math.sqrt(n)`.  For an integer
`n` in the double-exact range, the correctly rounded `Math.sqrt(n)` bound
admits exactly the integers `i ≤ Nat.sqrt n` (a rounded-up bound can only
add a non-divisor), so the bound is modelled as `Nat.sqrt`.  With `n = NaN`
both comparisons are false, so the code returns true. -/
def is_prime : JSNum → Bool
  | JSNum.nan => true
  | JSNum.num v =>
    if v < 2 then false
    else (List.range' 2 (Nat.sqrt v.toNat - 1)).all fun i => v.toNat % i != 0

/-- One iteration of the loop in `src/index.js` lines 27-31:
`temp = a + b; a = b; b = temp`, iterated `k` times on the pair `(a, b)`. -/
def fibLoop : Nat → Nat × Nat → Nat × Nat
  | 0, p => p
  | k + 1, (a, b) => fibLoop k (b, a + b)

/-- From `src/index.js` lines 23-33: BigInt Fibonacci.  Base cases 0 and 1;
otherwise the loop runs `i = 2..n`, i.e. `n - 1` iterations from
`(0n, 1n)`, returning `b`.  With `n = NaN` or `n < 0` the loop body never
runs and the code returns `b = 1n`. -/
def fibonacci : JSNum → Nat
  | JSNum.nan => 1
  | JSNum.num v =>
    if v = 0 then 0
    else if v = 1 then 1
    else (fibLoop (v.toNat - 1) (0, 1)).2

/-- From `src/index.js` line 34: `str.split('').reverse().join('')`.
`split('')` cuts the string into its individual UTF-16 code units, so the
whole operation reverses the code-unit sequence. -/
def reverse_string (units : List Nat) : List Nat := units.reverse

/-- One update of `src/index.js` line 38:
`hash = ((hash << 5) + hash + c) >>> 0`.  `<<` works on ToInt32 of the
accumulator and `>>> 0` is ToUint32; all intermediate sums stay far below
2^53, so double arithmetic is exact. -/
def hashStep (h c : Nat) : Nat :=
  ((toInt32 (h * 32) + h + c) % (2 ^ 32 : Int)).toNat

/-- From `src/index.js` lines 35-41: DJB2-style rolling hash seeded with
5381, folded over `str.charCodeAt(i)` for `i = 0..str.length-1`, i.e. over
the string's UTF-16 code units (not its UTF-8 bytes). -/
def simple_hash (units : List Nat) : Nat := units.foldl hashStep 5381

end jsFallback

namespace moduleKernel

/-- Modelled from the spec: the compiled module's `add` kernel is missing
from the snapshot (`wasm/src/lib.rs`); §4.4 specifies "integer sum, no
overflow handling specified beyond native range". -/
def add (a b : Int) : Int := a + b

/-- Modelled from the spec: the compiled module's `factorial` kernel is
missing (`wasm/src/lib.rs`); §4.4 specifies "returns n! as an
arbitrary-precision integer" on the domain [0, 20]. -/
def factorial (n : Nat) : Nat := Nat.factorial n

/-- Modelled from the spec: the compiled module's `is_prime` kernel is
missing (`wasm/src/lib.rs`); §4.4 specifies "returns false for n<2; for
n≥2, trial-divides by every integer from 2 up to and including
floor(sqrt(n)), returning false on first exact divisor, true otherwise". -/
def is_prime (n : Int) : Bool :=
  if n < 2 then false
  else decide (∀ m < Nat.sqrt n.toNat + 1, 2 ≤ m → ¬ m ∣ n.toNat)

/-- Modelled from the spec: the compiled module's `fibonacci` kernel is
missing (`wasm/src/lib.rs`); §4.4 specifies the recurrence from the base
cases fibonacci(0)=0, fibonacci(1)=1 on the domain [0, 40]. -/
def fibonacci : Nat → Nat
  | 0 => 0
  | 1 => 1
  | n + 2 => fibonacci n + fibonacci (n + 1)

/-- Modelled from the spec: the compiled module's `reverse_string` kernel is
missing (`wasm/src/lib.rs`); §4.4 requires a Unicode-codepoint-safe
reversal, i.e. reversal of the codepoint sequence. -/
def reverse_string (cps : List Nat) : List Nat := cps.reverse

/-- Modelled from the spec: the compiled module's `simple_hash` kernel is
missing (`wasm/src/lib.rs`); §4.4 specifies seed 5381 and, for each input
byte c in order, hash = (hash*33 + c) mod 2^32. -/
def simple_hash (cps : List Nat) : Nat :=
  (utf8Bytes cps).foldl (fun h c => (h * 33 + c) % 2 ^ 32) 5381

end moduleKernel

/-- The byte-level rolling hash named by the claims: seed 5381 and, for each
byte c in order, hash = (hash*33 + c) mod 2^32 (DJB2 over bytes). -/
def byteHash (bytes : List Nat) : Nat :=
  bytes.foldl (fun h c => (h * 33 + c) % 2 ^ 32) 5381

/-- Decimal value of a digit-character run (helper for `parseIntJS`). -/
def decVal (cs : List Char) : Nat :=
  cs.foldl (fun a c => a * 10 + (c.toNat - 48)) 0

/-- Hexadecimal digit test (helper for `parseIntJS`). -/
def isHexDigitChar (c : Char) : Bool :=
  c.isDigit || ('a' ≤ c && c ≤ 'f') || ('A' ≤ c && c ≤ 'F')

/-- Hexadecimal value of one digit character (helper for `parseIntJS`). -/
def hexDigitVal (c : Char) : Nat :=
  if c.isDigit then c.toNat - 48
  else if 'a' ≤ c && c ≤ 'f' then c.toNat - 87
  else c.toNat - 55

/-- Unsigned part of `parseInt`: a `0x`/`0X` prefix switches to hexadecimal;
otherwise the longest leading decimal-digit run is taken; no digits at all
yields NaN. -/
def parseIntCore (cs : List Char) : JSNum :=
  match cs with
  | '0' :: 'x' :: rest =>
    let ds := rest.takeWhile isHexDigitChar
    if ds.isEmpty then JSNum.nan
    else JSNum.num (ds.foldl (fun a c => a * 16 + hexDigitVal c) 0)
  | '0' :: 'X' :: rest =>
    let ds := rest.takeWhile isHexDigitChar
    if ds.isEmpty then JSNum.nan
    else JSNum.num (ds.foldl (fun a c => a * 16 + hexDigitVal c) 0)
  | _ =>
    let ds := cs.takeWhile Char.isDigit
    if ds.isEmpty then JSNum.nan else JSNum.num (decVal ds)

/-- ECMAScript `parseInt(s)` with no radix argument: strip leading
whitespace, read an optional sign, then a hexadecimal literal after a
`0x`/`0X` prefix or else the longest leading decimal-digit run; NaN when no
digits are found.  (Whitespace is modelled as the common four characters;
all parsed values stay exact, which holds for the query strings the claims
quantify over.) -/
def parseIntJS (s : String) : JSNum :=
  let cs := s.data.dropWhile fun c =>
    c == ' ' || c == '\t' || c == '\n' || c == '\r'
  match cs with
  | '-' :: rest =>
    match parseIntCore rest with
    | JSNum.nan => JSNum.nan
    | JSNum.num v => JSNum.num (-v)
  | '+' :: rest => parseIntCore rest
  | _ => parseIntCore cs

/-- JavaScript `x || d` on a string drawn from `url.searchParams.get`:
an absent parameter (`null`) and the empty string are both falsy, so both
are replaced by the default. -/
def jsOrDefault (q : Option String) (d : String) : String :=
  match q with
  | none => d
  | some s => if s = "" then d else s

/-- JavaScript `n < k` for a parsed number: any comparison with NaN is
false. -/
def jsLtInt : JSNum → Int → Bool
  | JSNum.nan, _ => false
  | JSNum.num v, k => v < k

/-- JavaScript `n > k` for a parsed number: any comparison with NaN is
false. -/
def jsGtInt : JSNum → Int → Bool
  | JSNum.nan, _ => false
  | JSNum.num v, k => k < v

/-- Parsed `n` of the `/factorial` route: `parseInt(url.searchParams.get('n')
|| '5')` (`src/index.js` line 111). -/
def factorialParam (q : Option String) : JSNum := parseIntJS (jsOrDefault q "5")

/-- Parsed `n` of the `/fibonacci` route: `parseInt(url.searchParams.get('n')
|| '10')` (`src/index.js` line 143). -/
def fibonacciParam (q : Option String) : JSNum := parseIntJS (jsOrDefault q "10")

deriving instance DecidableEq for Except

/-- Observable outcome of one route invocation: the kernel invocations made
(arguments in order) and either a thrown-error message or the response's
(status, result-or-error body field). -/
structure RouteTrace where
  kernelCalls : List JSNum
  response : Except String (Nat × String)
deriving DecidableEq

/-- The `/factorial` route of `src/index.js` lines 110-128 (on the
JavaScript-fallback backend): parse `n` with default `'5'`, reject with
status 400 before any kernel call when `n < 0 || n > 20`, otherwise invoke
the factorial kernel and serialize its BigInt result with `toString()`.  A
RangeError thrown by the kernel propagates (there is no try/catch in this
worker). -/
def handleFactorial (q : Option String) : RouteTrace :=
  let n := factorialParam q
  if jsLtInt n 0 || jsGtInt n 20 then
    ⟨[], Except.ok (400, "Number must be between 0 and 20")⟩
  else
    match jsFallback.factorial n with
    | Except.ok v => ⟨[n], Except.ok (200, Nat.repr v)⟩
    | Except.error e => ⟨[n], Except.error e⟩

/-- The `/fibonacci` route of `src/index.js` lines 142-160 (on the
JavaScript-fallback backend): parse `n` with default `'10'`, reject with
status 400 before any kernel call when `n < 0 || n > 40`, otherwise invoke
the Fibonacci kernel and serialize its BigInt result. -/
def handleFibonacci (q : Option String) : RouteTrace :=
  let n := fibonacciParam q
  if jsLtInt n 0 || jsGtInt n 40 then
    ⟨[], Except.ok (400, "Number must be between 0 and 40")⟩
  else ⟨[n], Except.ok (200, Nat.repr (jsFallback.fibonacci n))⟩

/-- Which operation table the hybrid worker ends up using. -/
inductive Backend where
  | wasm : Backend
  | fallback : Backend
deriving DecidableEq

/-- Module-level state of `src/index.js` lines 2-3:
`let wasmFunctions = null; let wasmAvailable = false;`. -/
structure HybridState where
  wasmFunctions : Option Backend
  wasmAvailable : Bool
deriving DecidableEq

/-- Initial hybrid-worker state (`wasmFunctions = null`,
`wasmAvailable = false`). -/
def hybridInit : HybridState := ⟨none, false⟩

/-- `initWasm` of `src/index.js` lines 44-70, with the per-call load outcome
(`loadOk`: whether the dynamic import and instantiation succeed) supplied by
the environment.  Returns the new state and whether this call attempted
module instantiation: the early return fires only when `wasmAvailable` is
already true; otherwise the try block runs, caching the WASM table on
success and the JavaScript fallback table (with `wasmAvailable = false`) on
failure. -/
def initWasm (loadOk : Bool) (s : HybridState) : HybridState × Bool :=
  if s.wasmAvailable then (s, false)
  else if loadOk then (⟨some Backend.wasm, true⟩, true)
  else (⟨some Backend.fallback, false⟩, true)

/-- `initWasm` of `src/index-wasm.js` lines 6-11 and the static-import
variant (`part_000` lines 9-14): `if (!wasmInstance) wasmInstance = await
WebAssembly.instantiate(...)`.  The state is the cached `wasmInstance`
(`none` models `null`); a failed instantiation throws, leaving the cache
empty.  Returns (thrown-or-state, attempted-instantiation). -/
def initWasmPure (loadOk : Bool) (s : Option Unit) :
    (Except String (Option Unit)) × Bool :=
  match s with
  | some i => (Except.ok (some i), false)
  | none =>
    if loadOk then (Except.ok (some ()), true)
    else (Except.error "instantiation failed", true)

/-- Floor of the base-2 logarithm for the 64-bit range covered by this
model (every double arising here is an integer below 2^62). -/
def floorLog2 (x : Nat) : Nat :=
  ((List.range 64).filter fun k => 2 ^ k ≤ x).length - 1

/-- Unit in the last place of the integer `x` viewed as an IEEE-754 double:
integers below 2^53 are exactly representable (ulp exponent 0); above, the
ulp is 2^(floor(log2 x) - 52). -/
def ulpExp (x : Nat) : Nat := if x < 2 ^ 53 then 0 else floorLog2 x - 52

/-- Round `x` to the nearest multiple of 2^e, ties to even multiple. -/
def roundEven (x e : Nat) : Nat :=
  let u := 2 ^ e
  let q := x / u
  let r := x % u
  if 2 * r < u then q * u
  else if u < 2 * r then (q + 1) * u
  else if q % 2 = 0 then q * u else (q + 1) * u

/-- Round-to-nearest-even of the exact integer `x` at double precision.
This is the value an IEEE-754 double operation returns when its exact result
is the integer `x`. -/
def fl (x : Nat) : Nat := roundEven x (ulpExp x)

/-- The plain-Number factorial of `part_001` lines 37-40:
`let fact = 1; for (let i = 2; i <= n; i++) fact *= i;` where `fact` is a
double, so every multiplication rounds its exact integer result to the
nearest double. -/
def numberFactorial (n : Nat) : Nat :=
  (List.range' 2 (n - 1)).foldl (fun acc i => fl (acc * i)) 1

/-- Number of decimal digits of `v` (helper for the `toString` model). -/
def numDigits (v : Nat) : Nat := (Nat.repr v).length

/-- Multiples of `p` lying in [v - u, v + u] (helper for the `toString`
model: every decimal that rounds to the double `v` lies in this window). -/
def candMultiples (v u p : Nat) : List Nat :=
  let lo := v - u
  let first := (lo + p - 1) / p * p
  (List.range ((v + u - first) / p + 1)).map fun k => first + k * p

/-- Among the multiples of `p` near `v`, the one closest to `v` that rounds
to the double `v`, if any (helper for the `toString` model). -/
def bestCand (v u p : Nat) : Option Nat :=
  ((candMultiples v u p).filter fun d => fl d == v).foldl
    (fun acc d =>
      match acc with
      | none => some d
      | some b => if Nat.dist d v < Nat.dist b v then some d else some b)
    none

/-- Search downward for the coarsest power of ten admitting a decimal that
rounds to `v` (helper for the `toString` model). -/
def srtAux (v u : Nat) : Nat → Nat
  | 0 => v
  | t + 1 =>
    match bestCand v u (10 ^ (t + 1)) with
    | some d => d
    | none => srtAux v u t

/-- The decimal value printed by ECMAScript `Number::toString` for an
integer-valued double `v` below 10^21: the decimal with the fewest
significant digits (ties broken towards `v`) that rounds back to `v`.
Trailing zeros make a decimal with fewer significant digits a multiple of a
larger power of ten, so the search runs over powers of ten. -/
def shortestRoundTrip (v : Nat) : Nat := srtAux v (2 ^ ulpExp v) (numDigits v)

/-- `fact.toString()` on the plain-Number backend: decimal digits of the
shortest round-tripping decimal for the double `v`. -/
def jsNumberToString (v : Nat) : String := Nat.repr (shortestRoundTrip v)

/-- Exports of a compiled-module instance as the `/reverse` marshaller of
`part_000` sees them: presence of each export and the value each returns
(a returned pointer of 0 models a null/failed allocation). -/
structure ModuleIface where
  hasAlloc : Bool
  allocRet : Nat → Nat
  hasReversePtr : Bool
  reverseRet : Nat → Nat → Nat
  hasGetLen : Bool
  lenRet : Nat → Nat
  hasDealloc : Bool

/-- Observable trace of one `/reverse` marshalling call: pointers obtained
(from `alloc` or returned by the module), pointers passed to `dealloc`, and
either a thrown-error message (caught upstream as a 500) or the HTTP status
of the produced response. -/
structure MarshalTrace where
  allocated : List Nat
  deallocated : List Nat
  response : Except String Nat
deriving DecidableEq

/-- The `/reverse` marshaller of `part_000` lines 114-156, for an input of
`tl` encoded bytes.  `callWasmFunction` throws when an export is missing
(lines 17-23); a throw anywhere aborts the remaining statements — in
particular the two `dealloc` calls at lines 146-147 run only on the
straight-line success path.  A null pointer from `alloc` returns a 500
response before anything was allocated. -/
def handleReverse (m : ModuleIface) (tl : Nat) : MarshalTrace :=
  if !m.hasAlloc then ⟨[], [], Except.error "WASM function alloc not found"⟩
  else
    let ptr := m.allocRet tl
    if ptr = 0 then ⟨[], [], Except.ok 500⟩
    else if !m.hasReversePtr then
      ⟨[ptr], [], Except.error "WASM function reverse_string_ptr not found"⟩
    else
      let rptr := m.reverseRet ptr tl
      if !m.hasGetLen then
        ⟨[ptr, rptr], [], Except.error "WASM function get_string_length not found"⟩
      else if !m.hasDealloc then
        ⟨[ptr, rptr], [], Except.error "WASM function dealloc not found"⟩
      else ⟨[ptr, rptr], [ptr, rptr], Except.ok 200⟩

/-- A realistic module instance for the leak scenario: `alloc` and `dealloc`
exist and allocation succeeds (pointer 8), but `reverse_string_ptr` is not
exported — exactly the case `part_000`'s home page hedges about with
"(if memory functions available)". -/
def leakyModule : ModuleIface :=
  ⟨true, fun _ => 8, false, fun _ _ => 0, false, fun _ => 0, true⟩

/-- A fully equipped module instance: every export present, `alloc` returns
pointer 8 and the module returns result pointer 16. -/
def okModule : ModuleIface :=
  ⟨true, fun _ => 8, true, fun _ _ => 16, true, fun _ => 11, true⟩

lemma range'_two_prod (n : Nat) :
    (List.range' 2 n).foldl (· * ·) 1 = Nat.factorial (n + 1) := by
  induction n with
  | zero => simp [Nat.factorial]
  | succ k ih =>
    rw [List.range'_concat, List.foldl_append, ih]
    simp [Nat.factorial_succ]
    ring

lemma factorial_num (n : Nat) :
    jsFallback.factorial (JSNum.num n) = Except.ok (Nat.factorial n) := by
  cases n with
  | zero => rfl
  | succ k =>
    have hne : ((k + 1 : Nat) : Int) ≠ 0 := by positivity
    simp only [jsFallback.factorial, hne, if_false, Int.toNat_natCast,
      Nat.add_sub_cancel, range'_two_prod]

lemma fibLoop_fib (k m : Nat) :
    jsFallback.fibLoop k (Nat.fib m, Nat.fib (m + 1)) =
      (Nat.fib (m + k), Nat.fib (m + k + 1)) := by
  induction k generalizing m with
  | zero => simp [jsFallback.fibLoop]
  | succ j ih =>
    rw [jsFallback.fibLoop, ← Nat.fib_add_two, ih (m + 1)]
    ring_nf

lemma fibonacci_num (n : Nat) :
    jsFallback.fibonacci (JSNum.num n) = Nat.fib n := by
  match n with
  | 0 => rfl
  | 1 => rfl
  | k + 2 =>
    have hne0 : ((k + 2 : Nat) : Int) ≠ 0 := by positivity
    have hne1 : ((k + 2 : Nat) : Int) ≠ 1 := by omega
    have : ((k + 2 : Nat) : Int).toNat - 1 = k + 1 := by omega
    simp only [jsFallback.fibonacci, hne0, hne1, if_false, this]
    have h0 : (0, 1) = (Nat.fib 0, Nat.fib 1) := rfl
    rw [h0, fibLoop_fib]
    simp

lemma specFib_eq_fib (n : Nat) : moduleKernel.fibonacci n = Nat.fib n := by
  induction n using Nat.twoStepInduction with
  | zero => rfl
  | one => rfl
  | more k ih1 ih2 => rw [moduleKernel.fibonacci, ih1, ih2, Nat.fib_add_two]

lemma all_range'_two_iff (k : Nat) (f : Nat → Bool) :
    (List.range' 2 (k - 1)).all f = true ↔
      ∀ m : Nat, 2 ≤ m → m ≤ k → f m = true := by
  rw [List.all_eq_true]
  constructor
  · intro h m h2 hk
    exact h m (List.mem_range'_1.mpr ⟨h2, by omega⟩)
  · intro h m hm
    obtain ⟨h2, hlt⟩ := List.mem_range'_1.mp hm
    exact h m h2 (by omega)

lemma is_prime_num_iff (v : Int) (h2 : 2 ≤ v) :
    jsFallback.is_prime (JSNum.num v) = true ↔
      ∀ m : Nat, 2 ≤ m → m ≤ Nat.sqrt v.toNat → ¬ m ∣ v.toNat := by
  have hvlt : ¬ v < 2 := not_lt.mpr h2
  simp only [jsFallback.is_prime, hvlt, if_false]
  rw [all_range'_two_iff]
  constructor
  · intro h m hm hsq hdvd
    have := h m hm hsq
    rw [Nat.dvd_iff_mod_eq_zero] at hdvd
    simp [hdvd] at this
  · intro h m hm hsq
    have := h m hm hsq
    rw [Nat.dvd_iff_mod_eq_zero] at this
    simpa using this

lemma is_prime_num_prime (v : Int) (h2 : 2 ≤ v) :
    jsFallback.is_prime (JSNum.num v) = true ↔ Nat.Prime v.toNat := by
  rw [is_prime_num_iff v h2, Nat.prime_def_le_sqrt]
  have : 2 ≤ v.toNat := by omega
  tauto

lemma spec_is_prime_eq (v : Int) :
    moduleKernel.is_prime v = jsFallback.is_prime (JSNum.num v) := by
  by_cases hv : v < 2
  · simp [moduleKernel.is_prime, jsFallback.is_prime, hv]
  · have h2 : 2 ≤ v := not_lt.mp hv
    have hmod : moduleKernel.is_prime v = true ↔
        ∀ m : Nat, 2 ≤ m → m ≤ Nat.sqrt v.toNat → ¬ m ∣ v.toNat := by
      simp only [moduleKernel.is_prime, hv, if_false, decide_eq_true_eq]
      constructor
      · intro h m hm hsq
        exact h m (by omega) hm
      · intro h m hlt hm
        exact h m hm (by omega)
    rw [Bool.eq_iff_iff, hmod, is_prime_num_iff v h2]

lemma toInt32_emod (x : Int) : toInt32 x % 2 ^ 32 = x % 2 ^ 32 := by
  unfold toInt32
  split <;> omega

lemma hashStep_eq (h c : Nat) :
    jsFallback.hashStep h c = (h * 33 + c) % 2 ^ 32 := by
  have key : (toInt32 (h * 32) + h + c) % (2 ^ 32 : Int) =
      ((h * 33 + c : Nat) : Int) % ((2 ^ 32 : Nat) : Int) := by
    rw [add_assoc, Int.add_emod, toInt32_emod, ← Int.add_emod]
    push_cast
    congr 1
    ring
  simp only [jsFallback.hashStep, key]
  omega

lemma hash_foldl_eq (units : List Nat) (h : Nat) :
    units.foldl jsFallback.hashStep h =
      units.foldl (fun a c => (a * 33 + c) % 2 ^ 32) h := by
  induction units generalizing h with
  | nil => simp
  | cons u us ih =>
    rw [List.foldl_cons, List.foldl_cons, hashStep_eq]
    exact ih _

lemma utf8Bytes_ascii (cps : List Nat) (h : ∀ c ∈ cps, c < 128) :
    utf8Bytes cps = cps := by
  induction cps with
  | nil => rfl
  | cons c cs ih =>
    have hc : c < 128 := h c (List.mem_cons_self c cs)
    have hcs := ih fun x hx => h x (List.mem_cons_of_mem c hx)
    simp [utf8Bytes, hc] at hcs ⊢
    exact hcs

lemma utf16Units_bmp (cps : List Nat) (h : ∀ c ∈ cps, c < 0x10000) :
    utf16Units cps = cps := by
  induction cps with
  | nil => rfl
  | cons c cs ih =>
    have hc : c < 0x10000 := h c (List.mem_cons_self c cs)
    have hcs := ih fun x hx => h x (List.mem_cons_of_mem c hx)
    simp [utf16Units, hc] at hcs ⊢
    exact hcs

/-- Claim C1 (counterexample): the claimed module/fallback equivalence fails
on the concrete two-codepoint string "😀a" (U+1F600 U+0061): the
spec-modelled module kernel reverses codepoints while the fallback reverses
UTF-16 code units, and the resulting code-unit sequences differ. -/
theorem backend_paths_differ_on_astral_reverse :
    jsFallback.reverse_string (utf16Units [0x1F600, 0x61]) ≠
      utf16Units (moduleKernel.reverse_string [0x1F600, 0x61]) := by decide

/-- Claim C1 (amended): the module path (spec-modelled kernels) and the
native fallback path produce identical results for add on all integers, for
factorial on [0,20], for is_prime on all integers, for fibonacci on [0,40],
and for the string operations restricted to strings without astral
codepoints: reverse_string agrees on strings of BMP (single-code-unit)
codepoints and simple_hash agrees on ASCII strings; on non-ASCII / astral
input the two string paths differ. -/
theorem backend_equivalence_on_restricted_domains :
    (∀ a b : Int, moduleKernel.add a b = jsFallback.add a b) ∧
    (∀ n : Nat, n ≤ 20 →
      jsFallback.factorial (JSNum.num n) = Except.ok (moduleKernel.factorial n)) ∧
    (∀ v : Int, moduleKernel.is_prime v = jsFallback.is_prime (JSNum.num v)) ∧
    (∀ n : Nat, n ≤ 40 →
      jsFallback.fibonacci (JSNum.num n) = moduleKernel.fibonacci n) ∧
    (∀ cps : List Nat, (∀ c ∈ cps, c < 0x10000) →
      jsFallback.reverse_string (utf16Units cps) =
        utf16Units (moduleKernel.reverse_string cps)) ∧
    (∀ cps : List Nat, (∀ c ∈ cps, c < 128) →
      jsFallback.simple_hash (utf16Units cps) = moduleKernel.simple_hash cps) := by
  refine ⟨fun a b => rfl, fun n _ => factorial_num n, spec_is_prime_eq,
    fun n _ => ?_, fun cps h => ?_, fun cps h => ?_⟩
  · rw [fibonacci_num, specFib_eq_fib]
  · have hrev : ∀ c ∈ cps.reverse, c < 0x10000 := fun c hc =>
      h c (List.mem_reverse.mp hc)
    rw [utf16Units_bmp cps h, jsFallback.reverse_string,
      moduleKernel.reverse_string, utf16Units_bmp cps.reverse hrev]
  · have h16 : ∀ c ∈ cps, c < 0x10000 := fun c hc =>
      lt_trans (h c hc) (by norm_num)
    rw [utf16Units_bmp cps h16, jsFallback.simple_hash, hash_foldl_eq,
      moduleKernel.simple_hash, utf8Bytes_ascii cps h]

/-- Claim C1 (witness): the amended equivalence instantiated at concrete
inputs: factorial at n = 7 and simple_hash at the ASCII string "cf". -/
theorem backend_equivalence_witness :
    jsFallback.factorial (JSNum.num 7) = Except.ok (moduleKernel.factorial 7) ∧
    jsFallback.simple_hash (utf16Units [0x63, 0x66]) =
      moduleKernel.simple_hash [0x63, 0x66] :=
  ⟨backend_equivalence_on_restricted_domains.2.1 7 (by decide),
    backend_equivalence_on_restricted_domains.2.2.2.2.2 [0x63, 0x66]
      (by decide)⟩

/-- Claim C2 (counterexample): after a first initializer call whose load
attempt failed, the next call does re-attempt module instantiation, in the
hybrid worker (the `wasmAvailable` guard is false after a failure) as well
as in the pure-WASM workers (a failed `WebAssembly.instantiate` throws, so
`wasmInstance` stays null). -/
theorem init_reattempts_after_failed_load :
    (initWasm false (initWasm false hybridInit).1).2 = true ∧
    (initWasmPure false none).1 = Except.error "instantiation failed" ∧
    (initWasmPure false none).2 = true := by decide

/-- Claim C2 (amended): after a first initializer call whose load attempt
succeeded, every subsequent call returns the cached outcome without
re-attempting instantiation; after a failed attempt the hybrid worker caches
the fallback table for the current call but re-attempts instantiation on the
next call, and the pure-WASM workers cache nothing. -/
theorem init_cached_after_successful_load :
    (∀ (l : Bool) (s : HybridState),
      initWasm l (initWasm true s).1 = ((initWasm true s).1, false)) ∧
    (∀ l : Bool, initWasmPure l (some ()) = (Except.ok (some ()), false)) ∧
    (initWasm false hybridInit).1.wasmFunctions = some Backend.fallback := by
  refine ⟨fun l s => ?_, fun l => rfl, rfl⟩
  by_cases hs : s.wasmAvailable <;> simp [initWasm, hs]

set_option maxRecDepth 8000 in
/-- Claim C3: for every n in [0,20] the factorial value is the exact n! on
both backends in the repository — the BigInt fallback kernel and the
plain-Number implementation of the test worker — and the decimal
serialization each backend produces (`BigInt.toString`, shortest-round-trip
`Number.toString`) is the exact decimal expansion, with factorial(7)
printing "5040" and factorial(20) printing "2432902008176640000".  (Every
intermediate product up to 20! happens to be exactly representable as a
double, so even the Number backend never rounds.) -/
theorem factorial_exact_on_all_backends :
    (∀ n : Nat, n ≤ 20 →
      jsFallback.factorial (JSNum.num n) = Except.ok (Nat.factorial n) ∧
      numberFactorial n = Nat.factorial n ∧
      jsNumberToString (numberFactorial n) = Nat.repr (Nat.factorial n)) ∧
    Nat.repr (Nat.factorial 7) = "5040" ∧
    jsNumberToString (numberFactorial 7) = "5040" ∧
    Nat.repr (Nat.factorial 20) = "2432902008176640000" ∧
    jsNumberToString (numberFactorial 20) = "2432902008176640000" := by
  have hnum : ∀ n : Nat, n ≤ 20 → numberFactorial n = Nat.factorial n := by
    decide
  have hstr : ∀ n : Nat, n ≤ 20 →
      jsNumberToString (numberFactorial n) = Nat.repr (Nat.factorial n) := by
    decide
  exact ⟨fun n hn => ⟨factorial_num n, hnum n hn, hstr n hn⟩,
    by decide, by decide, by decide, by decide⟩

/-- Claim C3 (witness): the bounded statement instantiated at n = 7. -/
theorem factorial_exact_witness :
    jsFallback.factorial (JSNum.num 7) = Except.ok (Nat.factorial 7) ∧
    numberFactorial 7 = Nat.factorial 7 ∧
    jsNumberToString (numberFactorial 7) = Nat.repr (Nat.factorial 7) :=
  factorial_exact_on_all_backends.1 7 (by decide)

/-- Claim C4 (counterexample): on the one-codepoint string "é" (U+00E9) the
fallback's simple_hash consumes the single UTF-16 code unit 0xE9, while the
byte-defined rolling hash of the claim consumes the two UTF-8 bytes 0xC3
0xA9; the two values differ. -/
theorem simple_hash_not_byte_hash :
    jsFallback.simple_hash (utf16Units [0xE9]) ≠ byteHash (utf8Bytes [0xE9]) := by
  decide

/-- Claim C4 (amended): simple_hash(s) equals the rolling hash with seed
5381 and update hash = (hash*33 + c) mod 2^32 taken over the UTF-16 code
units of s (charCodeAt), not over its UTF-8 bytes; the byte-defined hash of
the claim coincides with it exactly when every codepoint of s is ASCII. -/
theorem simple_hash_rolls_over_utf16_units :
    (∀ units : List Nat,
      jsFallback.simple_hash units =
        units.foldl (fun h c => (h * 33 + c) % 2 ^ 32) 5381) ∧
    (∀ cps : List Nat, (∀ c ∈ cps, c < 128) →
      jsFallback.simple_hash (utf16Units cps) = byteHash (utf8Bytes cps)) := by
  refine ⟨fun units => hash_foldl_eq units 5381, fun cps h => ?_⟩
  have h16 : ∀ c ∈ cps, c < 0x10000 := fun c hc =>
    lt_trans (h c hc) (by norm_num)
  rw [utf16Units_bmp cps h16, utf8Bytes_ascii cps h, jsFallback.simple_hash,
    hash_foldl_eq, byteHash]

/-- Claim C4 (witness): the amended statement instantiated at the ASCII
string "ok" (codepoints 0x6F 0x6B). -/
theorem simple_hash_witness :
    jsFallback.simple_hash (utf16Units [0x6F, 0x6B]) =
      byteHash (utf8Bytes [0x6F, 0x6B]) :=
  simple_hash_rolls_over_utf16_units.2 [0x6F, 0x6B] (by decide)

/-- Claim C5: reverse_string("Hello World") does return "dlroW olleH", but
the claimed codepoint safety fails — the code reverses UTF-16 code units
(`split('')`), so on the single-codepoint input U+1F600 (😀, encoded D83D
DE00) it produces the sequence DE00 D83D: a lone low surrogate followed by a
lone high surrogate, an ill-formed sequence in which the input codepoint no
longer appears. -/
theorem reverse_string_splits_surrogate_pair :
    jsFallback.reverse_string (utf16Units (strCps "Hello World")) =
      utf16Units (strCps "dlroW olleH") ∧
    jsFallback.reverse_string (utf16Units [0x1F600]) = [0xDE00, 0xD83D] ∧
    wellFormedUtf16 (jsFallback.reverse_string (utf16Units [0x1F600])) = false ∧
    wellFormedUtf16 (utf16Units [0x1F600]) = true := by decide

/-- Claim C6: is_prime returns false for every n < 2; for n ≥ 2 it returns
true exactly when no integer in [2, floor(sqrt n)] divides n, which is
exactly primality of n; and is_prime(1) = false, is_prime(2) = true,
is_prime(97) = true. -/
theorem is_prime_agrees_with_trial_division :
    (∀ v : Int, v < 2 → jsFallback.is_prime (JSNum.num v) = false) ∧
    (∀ v : Int, 2 ≤ v →
      (jsFallback.is_prime (JSNum.num v) = true ↔
        ∀ m : Nat, 2 ≤ m → m ≤ Nat.sqrt v.toNat → ¬ m ∣ v.toNat)) ∧
    (∀ v : Int, 2 ≤ v →
      (jsFallback.is_prime (JSNum.num v) = true ↔ Nat.Prime v.toNat)) ∧
    jsFallback.is_prime (JSNum.num 1) = false ∧
    jsFallback.is_prime (JSNum.num 2) = true ∧
    jsFallback.is_prime (JSNum.num 97) = true := by
  refine ⟨fun v hv => by simp [jsFallback.is_prime, hv], is_prime_num_iff,
    is_prime_num_prime, by simp only [jsFallback.is_prime]; decide, ?_, ?_⟩
  · have h : Nat.sqrt ((2 : Int).toNat) = 1 := by show Nat.sqrt 2 = 1; norm_num
    simp only [jsFallback.is_prime]
    rw [h]
    decide
  · have h : Nat.sqrt ((97 : Int).toNat) = 9 := by
      show Nat.sqrt 97 = 9; norm_num
    simp only [jsFallback.is_prime]
    rw [h]
    decide

/-- Claim C6 (witness): the primality characterization instantiated at
n = 97. -/
theorem is_prime_witness :
    (2 : Int) ≤ 97 ∧ jsFallback.is_prime (JSNum.num 97) = true := by
  have hp : Nat.Prime 97 := by norm_num
  exact ⟨by norm_num,
    (is_prime_agrees_with_trial_division.2.2.1 97 (by norm_num)).mpr hp⟩

/-- Claim C7: for every n in [0,40] the fallback Fibonacci kernel computes
the canonical Fibonacci number (fib 0 = 0, fib 1 = 1, fib (k+2) =
fib k + fib (k+1)), and fibonacci(15) serializes to "610". -/
theorem fibonacci_canonical_sequence :
    (∀ n : Nat, n ≤ 40 → jsFallback.fibonacci (JSNum.num n) = Nat.fib n) ∧
    Nat.repr (jsFallback.fibonacci (JSNum.num 15)) = "610" :=
  ⟨fun n _ => fibonacci_num n, by decide⟩

/-- Claim C7 (witness): the bounded statement instantiated at n = 15. -/
theorem fibonacci_canonical_witness :
    jsFallback.fibonacci (JSNum.num 15) = Nat.fib 15 :=
  fibonacci_canonical_sequence.1 15 (by decide)

/-- Claim C8: whenever the query parameter parses to an integer outside the
documented range (factorial: [0,20], fibonacci: [0,40]), the route returns
the 400 domain-error response and records no kernel invocation. -/
theorem out_of_range_rejected_before_kernel :
    ∀ (q : Option String) (v : Int),
      (factorialParam q = JSNum.num v → (v < 0 ∨ 20 < v) →
        handleFactorial q =
          ⟨[], Except.ok (400, "Number must be between 0 and 20")⟩) ∧
      (fibonacciParam q = JSNum.num v → (v < 0 ∨ 40 < v) →
        handleFibonacci q =
          ⟨[], Except.ok (400, "Number must be between 0 and 40")⟩) := by
  intro q v
  constructor
  · intro hp hr
    have hguard :
        (jsLtInt (factorialParam q) 0 || jsGtInt (factorialParam q) 20) = true := by
      rw [hp]
      simp [jsLtInt, jsGtInt]
      exact hr
    simp [handleFactorial, hguard]
  · intro hp hr
    have hguard :
        (jsLtInt (fibonacciParam q) 0 || jsGtInt (fibonacciParam q) 40) = true := by
      rw [hp]
      simp [jsLtInt, jsGtInt]
      exact hr
    simp [handleFibonacci, hguard]

/-- Claim C8 (witness): the rejection instantiated at the concrete requests
`/factorial?n=21` and `/fibonacci?n=41`. -/
theorem out_of_range_witness :
    handleFactorial (some "21") =
      ⟨[], Except.ok (400, "Number must be between 0 and 20")⟩ ∧
    handleFibonacci (some "41") =
      ⟨[], Except.ok (400, "Number must be between 0 and 40")⟩ :=
  ⟨(out_of_range_rejected_before_kernel (some "21") 21).1 (by decide)
      (Or.inr (by decide)),
    (out_of_range_rejected_before_kernel (some "41") 41).2 (by decide)
      (Or.inr (by decide))⟩

/-- Claim C9: on the fault path the `/reverse` marshaller leaks — with a
module whose `alloc` succeeds (pointer 8) but whose `reverse_string_ptr`
export is absent, the thrown lookup error skips both `dealloc` calls, so
pointer 8 is allocated and never deallocated; on the full success path both
pointers are deallocated. -/
theorem reverse_marshaller_leaks_on_fault :
    handleReverse leakyModule 11 =
      ⟨[8], [], Except.error "WASM function reverse_string_ptr not found"⟩ ∧
    8 ∈ (handleReverse leakyModule 11).allocated ∧
    8 ∉ (handleReverse leakyModule 11).deallocated ∧
    handleReverse okModule 11 = ⟨[8, 16], [8, 16], Except.ok 200⟩ := by decide

/-- Claim C10: a present but non-numeric query parameter parses to NaN,
passes the range guard (NaN comparisons are false) and reaches the kernel —
the factorial kernel then throws converting NaN to BigInt while the
Fibonacci kernel returns 1 with status 200 — and an absent parameter is
replaced by the default (factorial: 5 giving "120", fibonacci: 10 giving
"55") rather than rejected. -/
theorem nan_and_defaults_reach_kernel :
    (∀ s : String, s ≠ "" → parseIntJS s = JSNum.nan →
      handleFactorial (some s) =
        ⟨[JSNum.nan], Except.error "Cannot convert NaN to a BigInt"⟩ ∧
      handleFibonacci (some s) = ⟨[JSNum.nan], Except.ok (200, "1")⟩) ∧
    handleFactorial none = ⟨[JSNum.num 5], Except.ok (200, "120")⟩ ∧
    handleFibonacci none = ⟨[JSNum.num 10], Except.ok (200, "55")⟩ := by
  refine ⟨fun s hs hp => ?_, by decide, by decide⟩
  have hfp : factorialParam (some s) = JSNum.nan := by
    simp [factorialParam, jsOrDefault, hs, hp]
  have hbp : fibonacciParam (some s) = JSNum.nan := by
    simp [fibonacciParam, jsOrDefault, hs, hp]
  constructor
  · simp only [handleFactorial, hfp]
    decide
  · simp only [handleFibonacci, hbp]
    decide

/-- Claim C10 (witness): the NaN path instantiated at the concrete request
`/factorial?n=abc` (and `/fibonacci?n=abc`). -/
theorem nan_reaches_kernel_witness :
    handleFactorial (some "abc") =
      ⟨[JSNum.nan], Except.error "Cannot convert NaN to a BigInt"⟩ ∧
    handleFibonacci (some "abc") = ⟨[JSNum.nan], Except.ok (200, "1")⟩ :=
  nan_and_defaults_reach_kernel.1 "abc" (by decide) (by decide)
